import Mathlib

/-!
Verification of the realtime channel connection manager of loryx.lol,
a shallow embedding of `src/hooks/use-websocket.ts` (the `useWebSocket`
hook).  The hook's mutable React state (`messages`, `isConnected`,
`error`, the `processedMessageIds` ref, the effect-local
`reconnectAttempts` counter) is modelled as an explicit record, and each
transport callback (`onopen`, `onmessage`, `onclose`) together with
`sendMessage` and the bind-time effect body becomes a pure state
transformer.
-/

namespace Loryx

/-- Lifecycle phase of the connection controller (the spec's state
machine; the source tracks it implicitly through which callback last
ran and whether a reconnect timer is pending). -/
inductive Phase where
  | Idle
  | Connecting
  | Open
  | Reconnecting
  | Failed
  | ClosedClean
deriving DecidableEq, Repr

/-- A parsed inbound event envelope as consumed by `socket.onmessage`:
`data.type`, the dedup key `data.id` (absent ⇒ `none`, mirroring the
JavaScript `undefined`), and the payload fields the handler inspects.
`media_url := some ""` mirrors an empty-string (falsy) URL. -/
structure Envelope where
  type : String
  id : Option String
  content : Option String
  media_url : Option String
  message : Option String
deriving DecidableEq, Repr

/-- JavaScript truthiness of a `string | null | undefined` value:
`null`/`undefined` and the empty string are falsy. -/
def jsTruthy : Option String → Bool
  | none => false
  | some s => s ≠ ""

/-- The hook's state: the visible message list, the connected flag, the
last error, the dedup ledger (`processedMessageIds` — a JS `Set` that
may also hold `undefined`, hence `Option String` elements), the
effect-local reconnect attempt counter, and the controller phase. -/
structure WsState where
  messages : List Envelope
  processedIds : List (Option String)
  isConnected : Bool
  error : Option String
  reconnectAttempts : Nat
  phase : Phase
deriving DecidableEq, Repr

/-- State right after a successful bind, before any transport event:
empty list and ledger, disconnected, no error, attempt counter 0. -/
def freshState : WsState :=
  { messages := []
    processedIds := []
    isConnected := false
    error := none
    reconnectAttempts := 0
    phase := Phase.Connecting }

/-- `if (data.media_url) data.type = "media"`: an envelope carrying a
truthy media reference is normalized to kind `media`. -/
def rewriteMediaType (data : Envelope) : Envelope :=
  if jsTruthy data.media_url then { data with type := "media" } else data

/-- The `socket.onmessage` handler on an already-parsed envelope.
Kinds `message`/`media` are deduplicated on `data.id`: a key already in
the ledger causes a silent drop, otherwise the key is recorded and the
(media-normalized) envelope appended to the visible list.  Any other
kind (`join`, `disconnect`, unrecognized) only logs and leaves the
state unchanged. -/
def handleMessage (data : Envelope) (s : WsState) : WsState :=
  if data.type = "message" ∨ data.type = "media" then
    if data.id ∈ s.processedIds then s
    else
      { s with
          processedIds := data.id :: s.processedIds
          messages := s.messages ++ [rewriteMediaType data] }
  else s

/-- Deliver a sequence of parsed inbound envelopes in order. -/
def runMessages (s : WsState) : List Envelope → WsState
  | [] => s
  | e :: es => runMessages (handleMessage e s) es

/-- `Math.min(1000 * Math.pow(2, reconnectAttempts), 30000)`: the
exponential backoff delay in milliseconds. -/
def backoffDelay (attempt : Nat) : Nat :=
  min (1000 * 2 ^ attempt) 30000

/-- `maxReconnectAttempts = 5`. -/
def maxReconnectAttempts : Nat := 5

/-- The `socket.onclose` handler.  It marks the connection closed, then:
codes 4001 and 1008 set the terminal "not authorized" error and return
without retry; otherwise, if the attempt counter is below the ceiling
and the code is not the clean-shutdown code 1000, a reconnect timer is
scheduled (the returned `Bool` records whether one was); otherwise, if
the counter has reached the ceiling, the terminal "could not reconnect"
error is set. -/
def closeTransition (s : WsState) (code : Nat) : WsState × Bool :=
  if code = 4001 ∨ code = 1008 then
    ({ s with isConnected := false
              error := some "Not authorized to access this channel"
              phase := Phase.Failed }, false)
  else if s.reconnectAttempts < maxReconnectAttempts ∧ code ≠ 1000 then
    ({ s with isConnected := false, phase := Phase.Reconnecting }, true)
  else if maxReconnectAttempts ≤ s.reconnectAttempts then
    ({ s with isConnected := false
              error := some "Could not reconnect to chat. Please refresh the page."
              phase := Phase.Failed }, false)
  else
    ({ s with isConnected := false, phase := Phase.ClosedClean }, false)

/-- The body of the scheduled reconnect timer: `reconnectAttempts++`
followed by `connectWebSocket()` (the controller re-enters
`Connecting` on a brand-new transport instance). -/
def reconnectFire (s : WsState) : WsState :=
  { s with reconnectAttempts := s.reconnectAttempts + 1
           phase := Phase.Connecting }

/-- Run a sequence of transport closures: each closure triggers
`closeTransition`; when a reconnect was scheduled, its timer then fires
(`reconnectFire`) and a new connection attempt starts. -/
def runClosures (s : WsState) : List Nat → WsState
  | [] => s
  | c :: cs =>
    let r := closeTransition s c
    runClosures (if r.2 then reconnectFire r.1 else r.1) cs

/-- A closure code is abnormal when it is neither the clean shutdown
code 1000 nor one of the unauthorized codes 4001 / 1008. -/
def abnormalCode (code : Nat) : Prop :=
  code ≠ 1000 ∧ code ≠ 4001 ∧ code ≠ 1008

instance (code : Nat) : Decidable (abnormalCode code) := by
  unfold abnormalCode; infer_instance

/- JSON values and `JSON.stringify`, enough to express the frames the
hook serializes (the auth handshake, the `{content}` wrapper and
pass-through structured payloads).  Mutual inductives stand in for the
nested `List` to keep recursion structural. -/

mutual
inductive Json where
  | null : Json
  | bool : Bool → Json
  | num : Int → Json
  | str : String → Json
  | arr : JsonArr → Json
  | obj : JsonObj → Json
deriving DecidableEq, Repr

inductive JsonArr where
  | nil : JsonArr
  | cons : Json → JsonArr → JsonArr
deriving DecidableEq, Repr

inductive JsonObj where
  | nil : JsonObj
  | cons : String → Json → JsonObj → JsonObj
deriving DecidableEq, Repr
end

/-- Escape one character of a JSON string literal (quote, backslash and
the common control characters; other characters pass through). -/
def jsonEscapeChar (c : Char) : String :=
  if c = '"' then "\\\""
  else if c = '\\' then "\\\\"
  else if c = '\n' then "\\n"
  else if c = '\r' then "\\r"
  else if c = '\t' then "\\t"
  else String.singleton c

/-- A JSON string literal: the escaped characters between quotes. -/
def jsonQuote (s : String) : String :=
  "\"" ++ String.join (s.data.map jsonEscapeChar) ++ "\""

mutual
/-- `JSON.stringify` on the modelled values. -/
def Json.stringify : Json → String
  | Json.null => "null"
  | Json.bool b => cond b "true" "false"
  | Json.num n => toString n
  | Json.str s => jsonQuote s
  | Json.arr xs => "[" ++ JsonArr.stringifyItems xs ++ "]"
  | Json.obj fs => "\x7b" ++ JsonObj.stringifyFields fs ++ "\x7d"

def JsonArr.stringifyItems : JsonArr → String
  | JsonArr.nil => ""
  | JsonArr.cons x JsonArr.nil => Json.stringify x
  | JsonArr.cons x xs => Json.stringify x ++ "," ++ JsonArr.stringifyItems xs

def JsonObj.stringifyFields : JsonObj → String
  | JsonObj.nil => ""
  | JsonObj.cons k v JsonObj.nil => jsonQuote k ++ ":" ++ Json.stringify v
  | JsonObj.cons k v fs =>
      jsonQuote k ++ ":" ++ Json.stringify v ++ "," ++ JsonObj.stringifyFields fs
end

/-- The serialized authentication handshake `JSON.stringify({ token })`. -/
def authFrame (token : String) : String :=
  Json.stringify (Json.obj (JsonObj.cons "token" (Json.str token) JsonObj.nil))

/-- The `socket.onopen` handler: send the token envelope as the sole
outbound frame of the handler, mark connected, clear the last error and
reset the reconnect attempt counter.  Returns the new state and the
frames written to the transport. -/
def handleOpen (token : String) (s : WsState) : WsState × List String :=
  ({ s with isConnected := true
            error := none
            reconnectAttempts := 0
            phase := Phase.Open },
   [authFrame token])

/-- `WebSocket.readyState` values. -/
inductive ReadyState where
  | CONNECTING
  | OPEN
  | CLOSING
  | CLOSED
deriving DecidableEq, Repr

/-- The `string | object` argument of `sendMessage`. -/
inductive SendContent where
  | str : String → SendContent
  | obj : Json → SendContent
deriving DecidableEq, Repr

/-- Observable outcome of one `sendMessage` call: its return value, the
frames written to the transport, and the error it set (`none` = no
`setError` call).  Serialization of the modelled `Json` values never
throws, so the `catch` branch of the source is unreachable here. -/
structure SendOutcome where
  retVal : Bool
  framesSent : List String
  errorSet : Option String
deriving DecidableEq, Repr

/-- `sendMessage`: with no socket or a non-OPEN ready-state it sets
"WebSocket not connected", writes nothing and returns `false`;
otherwise a string payload is wrapped as a content envelope and a
structured payload serialized unchanged, one frame is written and it
returns `true`.  `socket = none` models a null `socketRef.current`. -/
def sendMessage (socket : Option ReadyState) (content : SendContent) :
    SendOutcome :=
  match socket with
  | none =>
      { retVal := false, framesSent := [],
        errorSet := some "WebSocket not connected" }
  | some rs =>
      if rs ≠ ReadyState.OPEN then
        { retVal := false, framesSent := [],
          errorSet := some "WebSocket not connected" }
      else
        let frame :=
          match content with
          | SendContent.str c =>
              Json.stringify
                (Json.obj (JsonObj.cons "content" (Json.str c) JsonObj.nil))
          | SendContent.obj j => Json.stringify j
        { retVal := true, framesSent := [frame], errorSet := none }

/-- Value of one hexadecimal digit, `none` for a non-digit. -/
def hexDigitVal (c : Char) : Option Nat :=
  if '0' ≤ c ∧ c ≤ '9' then some (c.toNat - '0'.toNat)
  else if 'a' ≤ c ∧ c ≤ 'f' then some (c.toNat - 'a'.toNat + 10)
  else if 'A' ≤ c ∧ c ≤ 'F' then some (c.toNat - 'A'.toNat + 10)
  else none

/-- `decodeURIComponent`, modelled as single-byte percent decoding (a
malformed escape passes through unchanged; the claims under scrutiny
depend only on whether a token is present, not on its decoded bytes). -/
def percentDecodeAux : List Char → List Char
  | [] => []
  | '%' :: a :: b :: rest =>
      match hexDigitVal a, hexDigitVal b with
      | some ha, some hb =>
          Char.ofNat (16 * ha + hb) :: percentDecodeAux rest
      | _, _ => '%' :: percentDecodeAux (a :: b :: rest)
  | c :: rest => c :: percentDecodeAux rest

def percentDecode (s : String) : String :=
  String.mk (percentDecodeAux s.data)

/-- `document.cookie.split("; ")`, by left-to-right scan for the
two-character separator. -/
def splitRowsAux : List Char → List Char → List (List Char)
  | acc, [] => [acc.reverse]
  | acc, ';' :: ' ' :: rest => acc.reverse :: splitRowsAux [] rest
  | acc, c :: rest => splitRowsAux (c :: acc) rest

def splitRows (s : String) : List String :=
  (splitRowsAux [] s.data).map String.mk

/-- `row.split("=")`. -/
def splitEqAux : List Char → List Char → List (List Char)
  | acc, [] => [acc.reverse]
  | acc, '=' :: rest => acc.reverse :: splitEqAux [] rest
  | acc, c :: rest => splitEqAux (c :: acc) rest

def splitEq (s : String) : List String :=
  (splitEqAux [] s.data).map String.mk

/-- `getToken`: a truthy `localStorage.getItem("token")` wins; else the
first `document.cookie` row (split on `"; "`) starting with `token=`
yields the text after its first `=`, which if truthy is
percent-decoded; else `null`. -/
def getToken (storage : Option String) (cookie : String) : Option String :=
  if jsTruthy storage then storage
  else
    let fromCookie : Option String :=
      ((splitRows cookie).find?
          (fun row => List.isPrefixOf "token=".data row.data)).map
        (fun row => (splitEq row).getD 1 "")
    match fromCookie with
    | some v => if v = "" then none else some (percentDecode v)
    | none => none

/-- The bind-time effect body, up to `connectWebSocket()`.  It always
clears the visible list and the dedup ledger first.  A falsy channel id
only marks disconnected; the literal `"undefined"` id sets "Invalid
channel ID" and marks disconnected; a missing token sets
"Not authenticated"; each of those returns without touching the
transport.  Otherwise the attempt counter is declared at 0 and the
initial connection is attempted (returned `Bool` = a Connection was
created). -/
def bindEffect (channelId : Option String) (storage : Option String)
    (cookie : String) (s : WsState) : WsState × Bool :=
  let s0 := { s with messages := ([] : List Envelope)
                     processedIds := ([] : List (Option String)) }
  if ¬ jsTruthy channelId then
    ({ s0 with isConnected := false, phase := Phase.Idle }, false)
  else if channelId = some "undefined" then
    ({ s0 with error := some "Invalid channel ID"
               isConnected := false
               phase := Phase.Idle }, false)
  else
    match getToken storage cookie with
    | none =>
        ({ s0 with error := some "Not authenticated", phase := Phase.Idle },
         false)
    | some _ =>
        ({ s0 with reconnectAttempts := 0, phase := Phase.Connecting }, true)

/-- Number of visible entries whose dedup key is `i`. -/
def countId (msgs : List Envelope) (i : Option String) : Nat :=
  msgs.countP (fun m => m.id == i)

/-- Sample identified chat envelope. -/
def envM1 : Envelope :=
  { type := "message", id := some "m1", content := some "hi",
    media_url := none, message := none }

/-- Sample chat envelope with no identifier. -/
def noIdMsg : Envelope :=
  { type := "message", id := none, content := some "hello",
    media_url := none, message := none }

/-- State after the first identifier-less chat envelope is accepted. -/
def afterFirstNoId : WsState := handleMessage noIdMsg freshState

lemma rewriteMediaType_id (e : Envelope) : (rewriteMediaType e).id = e.id := by
  unfold rewriteMediaType
  split <;> rfl

lemma handleMessage_inv (e : Envelope) (s : WsState)
    (hmem : ∀ m ∈ s.messages, m.id ∈ s.processedIds)
    (hcount : ∀ i, countId s.messages i ≤ 1) :
    (∀ m ∈ (handleMessage e s).messages,
        m.id ∈ (handleMessage e s).processedIds) ∧
    (∀ i, countId (handleMessage e s).messages i ≤ 1) := by
  unfold handleMessage
  split
  · split
    · exact ⟨hmem, hcount⟩
    · rename_i hnew
      refine ⟨?_, ?_⟩
      · intro m hm
        simp only [List.mem_append, List.mem_singleton] at hm
        rcases hm with hm | hm
        · exact List.mem_cons_of_mem _ (hmem m hm)
        · subst hm
          rw [rewriteMediaType_id]
          exact List.mem_cons_self _ _
      · intro i
        unfold countId
        rw [List.countP_append]
        by_cases hid : e.id = i
        · have hzero : countId s.messages i = 0 := by
            by_contra hpos
            have : 0 < s.messages.countP (fun m => m.id == i) :=
              Nat.pos_of_ne_zero hpos
            rcases List.countP_pos_iff.mp this with ⟨m, hm, hp⟩
            have : m.id = i := by simpa using hp
            exact hnew (hid ▸ this ▸ hmem m hm)
          unfold countId at hzero
          rw [hzero, List.countP_singleton]
          cases hb : ((rewriteMediaType e).id == i) <;> simp [hb]
        · have : ((rewriteMediaType e).id == i) = false := by
            rw [rewriteMediaType_id]
            simpa using hid
          simp only [List.countP_singleton, this, if_false]
          exact hcount i
  · exact ⟨hmem, hcount⟩

lemma runMessages_inv (es : List Envelope) :
    ∀ s : WsState,
      (∀ m ∈ s.messages, m.id ∈ s.processedIds) →
      (∀ i, countId s.messages i ≤ 1) →
      (∀ i, countId (runMessages s es).messages i ≤ 1) := by
  induction es with
  | nil => intro s _ h2; exact h2
  | cons e es ih =>
      intro s h1 h2
      have h := handleMessage_inv e s h1 h2
      exact ih _ h.1 h.2

lemma runMessages_fresh_count (es : List Envelope) (i : Option String) :
    countId (runMessages freshState es).messages i ≤ 1 := by
  refine runMessages_inv es freshState ?_ ?_ i
  · intro m hm
    simp [freshState] at hm
  · intro j
    simp [freshState, countId]

lemma handleMessage_chat_new (e : Envelope) (s : WsState)
    (htype : e.type = "message" ∨ e.type = "media")
    (hnew : e.id ∉ s.processedIds) :
    (handleMessage e s).processedIds = e.id :: s.processedIds ∧
    (handleMessage e s).messages = s.messages ++ [rewriteMediaType e] := by
  unfold handleMessage
  rw [if_pos htype, if_neg hnew]
  exact ⟨rfl, rfl⟩

lemma handleMessage_chat_dup (e : Envelope) (s : WsState)
    (htype : e.type = "message" ∨ e.type = "media")
    (hdup : e.id ∈ s.processedIds) :
    handleMessage e s = s := by
  unfold handleMessage
  rw [if_pos htype, if_pos hdup]

/-- C1: within one channel subscription, for every delivered sequence of
chat envelopes and every identifier, the visible list holds that
identifier at most once; an identifier absent from the ledger is
recorded and its envelope appended, one already present is silently
dropped. -/
theorem dedup_identified_at_most_once :
    (∀ (es : List Envelope) (i : String),
        countId (runMessages freshState es).messages (some i) ≤ 1) ∧
    (∀ (e : Envelope) (s : WsState),
        (e.type = "message" ∨ e.type = "media") →
        ((e.id ∉ s.processedIds →
            (handleMessage e s).processedIds = e.id :: s.processedIds ∧
            (handleMessage e s).messages =
              s.messages ++ [rewriteMediaType e]) ∧
         (e.id ∈ s.processedIds → handleMessage e s = s))) := by
  refine ⟨fun es i => runMessages_fresh_count es (some i), ?_⟩
  intro e s htype
  exact ⟨handleMessage_chat_new e s htype, handleMessage_chat_dup e s htype⟩

/-- Witness for C1 at a concrete run: the envelope `m1` delivered twice
yields one visible entry, and the second delivery leaves the state
unchanged. -/
theorem dedup_identified_at_most_once_witness :
    countId (runMessages freshState [envM1, envM1]).messages (some "m1") ≤ 1 ∧
    handleMessage envM1 (handleMessage envM1 freshState) =
      handleMessage envM1 freshState := by
  constructor
  · exact dedup_identified_at_most_once.1 [envM1, envM1] "m1"
  · exact (dedup_identified_at_most_once.2 envM1
      (handleMessage envM1 freshState) (Or.inl rfl)).2 (by decide)

/-- C6 counterexample: a `message` envelope carrying no identifier,
delivered first into a fresh subscription, IS appended to the visible
list and its missing identifier IS recorded in the dedup ledger — the
claim says identifier-less envelopes of every kind are neither
deduplicated nor added. -/
theorem unidentified_message_is_added :
    (handleMessage noIdMsg freshState).messages = [noIdMsg] ∧
    (handleMessage noIdMsg freshState).processedIds = [none] := by
  decide

/-- C6 amended: an inbound envelope carrying no identifier whose kind
is neither `message` nor `media` (e.g. `join`/`disconnect` notices) is
not deduplicated and not added to the visible list — the handler leaves
the state entirely unchanged. -/
theorem non_chat_envelopes_ignored (e : Envelope) (s : WsState)
    (_hid : e.id = none)
    (hmsg : e.type ≠ "message") (hmedia : e.type ≠ "media") :
    handleMessage e s = s := by
  unfold handleMessage
  rw [if_neg]
  intro h
  rcases h with h | h
  · exact hmsg h
  · exact hmedia h

/-- Witness for C6 (amended) at a concrete `join` notice. -/
theorem non_chat_envelopes_ignored_witness :
    handleMessage
      { type := "join", id := none, content := none, media_url := none,
        message := some "user joined" } freshState = freshState :=
  non_chat_envelopes_ignored _ freshState rfl (by decide) (by decide)

/-- C10: across one subscription, at most one identifier-less chat
entry is ever visible: the first accepted `message`/`media` envelope
without an identifier records the missing key in the ledger, and every
later identifier-less chat envelope is silently dropped. -/
theorem unidentified_chat_dedup :
    (∀ es : List Envelope,
        countId (runMessages freshState es).messages none ≤ 1) ∧
    (∀ (e : Envelope) (s : WsState),
        (e.type = "message" ∨ e.type = "media") → e.id = none →
        ((none ∉ s.processedIds →
            (handleMessage e s).messages =
              s.messages ++ [rewriteMediaType e] ∧
            (handleMessage e s).processedIds = none :: s.processedIds) ∧
         (none ∈ s.processedIds → handleMessage e s = s))) := by
  refine ⟨fun es => runMessages_fresh_count es none, ?_⟩
  intro e s htype hid
  rw [← hid]
  constructor
  · intro hnew
    have h := handleMessage_chat_new e s htype hnew
    exact ⟨h.2, h.1⟩
  · exact handleMessage_chat_dup e s htype

/-- Witness for C10: after a first identifier-less chat envelope is
accepted, a second identifier-less chat envelope leaves the state
unchanged. -/
theorem unidentified_chat_dedup_witness :
    handleMessage noIdMsg afterFirstNoId = afterFirstNoId :=
  (unidentified_chat_dedup.2 noIdMsg afterFirstNoId
    (Or.inl rfl) rfl).2 (by decide)

lemma closeTransition_abnormal_lt (s : WsState) (c : Nat)
    (hab : abnormalCode c) (hlt : s.reconnectAttempts < maxReconnectAttempts) :
    closeTransition s c =
      ({ s with isConnected := false, phase := Phase.Reconnecting }, true) := by
  obtain ⟨h1000, h4001, h1008⟩ := hab
  unfold closeTransition
  rw [if_neg (by tauto), if_pos ⟨hlt, h1000⟩]

lemma closeTransition_at_ceiling (s : WsState) (c : Nat)
    (hab : abnormalCode c)
    (hge : maxReconnectAttempts ≤ s.reconnectAttempts) :
    closeTransition s c =
      ({ s with isConnected := false
                error :=
                  some "Could not reconnect to chat. Please refresh the page."
                phase := Phase.Failed }, false) := by
  obtain ⟨h1000, h4001, h1008⟩ := hab
  unfold closeTransition
  rw [if_neg (by tauto),
      if_neg (fun h => absurd hge (not_le.mpr h.1)), if_pos hge]

lemma closeTransition_no_retry_at_ceiling (s : WsState) (c : Nat)
    (hge : maxReconnectAttempts ≤ s.reconnectAttempts) :
    (closeTransition s c).2 = false := by
  by_cases h1 : c = 4001 ∨ c = 1008
  · unfold closeTransition
    rw [if_pos h1]
  · unfold closeTransition
    rw [if_neg h1, if_neg (fun h => absurd hge (not_le.mpr h.1)), if_pos hge]

lemma runClosures_cons (s : WsState) (c : Nat) (cs : List Nat) :
    runClosures s (c :: cs) =
      runClosures
        (if (closeTransition s c).2 then reconnectFire (closeTransition s c).1
         else (closeTransition s c).1) cs := rfl

lemma reconnectFire_attempts (s : WsState) :
    (reconnectFire s).reconnectAttempts = s.reconnectAttempts + 1 := rfl

lemma runClosures_abnormal_le (cs : List Nat) :
    ∀ s : WsState, (∀ c ∈ cs, abnormalCode c) →
      s.reconnectAttempts + cs.length ≤ maxReconnectAttempts →
      (runClosures s cs).reconnectAttempts =
          s.reconnectAttempts + cs.length ∧
      (runClosures s cs).phase =
          (if cs.isEmpty then s.phase else Phase.Connecting) := by
  induction cs with
  | nil => intro s _ _; exact ⟨rfl, rfl⟩
  | cons c cs ih =>
      intro s hab hle
      have hc : abnormalCode c := hab c (List.mem_cons_self _ _)
      have hle' : s.reconnectAttempts + (cs.length + 1) ≤ maxReconnectAttempts :=
        hle
      have hlt : s.reconnectAttempts < maxReconnectAttempts := by omega
      have hstep :
          runClosures s (c :: cs) =
            runClosures (reconnectFire
              { s with isConnected := false, phase := Phase.Reconnecting }) cs := by
        rw [runClosures_cons, closeTransition_abnormal_lt s c hc hlt]
        exact rfl
      have htail := ih (reconnectFire
          { s with isConnected := false, phase := Phase.Reconnecting })
        (fun c' hc' => hab c' (List.mem_cons_of_mem _ hc'))
        (by rw [reconnectFire_attempts]
            show s.reconnectAttempts + 1 + cs.length ≤ maxReconnectAttempts
            omega)
      rw [hstep]
      refine ⟨?_, ?_⟩
      · rw [htail.1, reconnectFire_attempts]
        show s.reconnectAttempts + 1 + cs.length =
          s.reconnectAttempts + (cs.length + 1)
        omega
      · rw [htail.2]
        cases cs <;> rfl

lemma runClosures_abnormal_fail (cs : List Nat) :
    ∀ s : WsState, (∀ c ∈ cs, abnormalCode c) →
      s.reconnectAttempts + cs.length = maxReconnectAttempts + 1 →
      s.reconnectAttempts ≤ maxReconnectAttempts →
      (runClosures s cs).phase = Phase.Failed ∧
      (runClosures s cs).error =
        some "Could not reconnect to chat. Please refresh the page." ∧
      (runClosures s cs).reconnectAttempts = maxReconnectAttempts := by
  induction cs with
  | nil =>
      intro s _ heq hbound
      simp only [List.length_nil, Nat.add_zero] at heq
      omega
  | cons c cs ih =>
      intro s hab heq hbound
      have hc : abnormalCode c := hab c (List.mem_cons_self _ _)
      have heq' : s.reconnectAttempts + (cs.length + 1) =
          maxReconnectAttempts + 1 := heq
      by_cases hnil : cs = []
      · subst hnil
        simp only [List.length_nil] at heq'
        have hge : maxReconnectAttempts ≤ s.reconnectAttempts := by omega
        rw [runClosures_cons, closeTransition_at_ceiling s c hc hge]
        refine ⟨rfl, rfl, ?_⟩
        show s.reconnectAttempts = maxReconnectAttempts
        omega
      · have hlen : 1 ≤ cs.length := by
          cases cs with
          | nil => exact absurd rfl hnil
          | cons _ _ => simp
        have hlt : s.reconnectAttempts < maxReconnectAttempts := by omega
        rw [runClosures_cons, closeTransition_abnormal_lt s c hc hlt]
        have hfin := ih (reconnectFire
            { s with isConnected := false, phase := Phase.Reconnecting })
          (fun c' hc' => hab c' (List.mem_cons_of_mem _ hc'))
          (by rw [reconnectFire_attempts]
              show s.reconnectAttempts + 1 + cs.length = _
              omega)
          (by rw [reconnectFire_attempts]
              show s.reconnectAttempts + 1 ≤ _
              omega)
        exact hfin

/-- C2 counterexample: five consecutive abnormal closures (code 1006)
from a fresh bind leave the controller connecting again — a fifth
reconnect is scheduled and fired — and not in the terminal failed
state, while the claim requires `Failed` at exactly N = 5. -/
theorem five_abnormal_closures_not_failed :
    (runClosures freshState (List.replicate 5 1006)).phase =
        Phase.Connecting ∧
    (runClosures freshState (List.replicate 5 1006)).phase ≠
        Phase.Failed ∧
    (runClosures freshState (List.replicate 5 1006)).reconnectAttempts = 5 := by
  decide

/-- C2 amended: from a fresh bind, after N consecutive abnormal
closures with N ≤ 5 the controller is connecting (a reconnect was
scheduled and fired), never failed; after exactly 6 such closures — the
closure that finds the attempt counter at its ceiling of 5 — it is in
the terminal failed state with the terminal error, and no further
closure can schedule a reconnect. -/
theorem abnormal_closure_failure_at_six (cs : List Nat)
    (hab : ∀ c ∈ cs, abnormalCode c) :
    (cs ≠ [] → cs.length ≤ 5 →
      (runClosures freshState cs).phase = Phase.Connecting ∧
      (runClosures freshState cs).phase ≠ Phase.Failed) ∧
    (cs.length = 6 →
      (runClosures freshState cs).phase = Phase.Failed ∧
      (runClosures freshState cs).error =
        some "Could not reconnect to chat. Please refresh the page." ∧
      ∀ c' : Nat,
        (closeTransition (runClosures freshState cs) c').2 = false) := by
  constructor
  · intro hne hlen
    have h := runClosures_abnormal_le cs freshState hab
      (by show 0 + cs.length ≤ 5; omega)
    have hphase : (runClosures freshState cs).phase = Phase.Connecting := by
      rw [h.2, if_neg]
      simpa using hne
    exact ⟨hphase, by rw [hphase]; intro hcon; exact Phase.noConfusion hcon⟩
  · intro hlen
    have h := runClosures_abnormal_fail cs freshState hab
      (by show 0 + cs.length = 5 + 1; omega)
      (by show (0 : Nat) ≤ 5; omega)
    refine ⟨h.1, h.2.1, fun c' => ?_⟩
    exact closeTransition_no_retry_at_ceiling _ c' (le_of_eq h.2.2.symm)

/-- Witness for C2 (amended) at six concrete abnormal closures with
code 1006. -/
theorem abnormal_closure_failure_at_six_witness :
    (runClosures freshState (List.replicate 6 1006)).phase = Phase.Failed ∧
    (closeTransition (runClosures freshState (List.replicate 6 1006)) 1006).2
      = false := by
  have h := (abnormal_closure_failure_at_six (List.replicate 6 1006)
    (by decide)).2 (by decide)
  exact ⟨h.1, h.2.2 1006⟩

/-- C3: a closure schedules a reconnect exactly when the code is not
1000, not 4001, not 1008 and the attempt counter is below the ceiling;
an unauthorized code (4001 or 1008) sets the terminal "not authorized"
error and never schedules a reconnect, whatever the counter holds. -/
theorem close_retry_policy (s : WsState) (code : Nat) :
    ((closeTransition s code).2 = true ↔
      (code ≠ 1000 ∧ code ≠ 4001 ∧ code ≠ 1008 ∧
       s.reconnectAttempts < maxReconnectAttempts)) ∧
    ((code = 4001 ∨ code = 1008) →
      (closeTransition s code).1.error =
          some "Not authorized to access this channel" ∧
      (closeTransition s code).2 = false) := by
  constructor
  · constructor
    · intro h
      by_cases h1 : code = 4001 ∨ code = 1008
      · unfold closeTransition at h
        rw [if_pos h1] at h
        simp at h
      · unfold closeTransition at h
        rw [if_neg h1] at h
        by_cases h2 :
            s.reconnectAttempts < maxReconnectAttempts ∧ code ≠ 1000
        · exact ⟨h2.2, fun hc => h1 (Or.inl hc),
            fun hc => h1 (Or.inr hc), h2.1⟩
        · rw [if_neg h2] at h
          by_cases h3 : maxReconnectAttempts ≤ s.reconnectAttempts
          · rw [if_pos h3] at h
            simp at h
          · rw [if_neg h3] at h
            simp at h
    · rintro ⟨h1000, h4001, h1008, hlt⟩
      rw [closeTransition_abnormal_lt s code ⟨h1000, h4001, h1008⟩ hlt]
  · intro h1
    unfold closeTransition
    rw [if_pos h1]
    exact ⟨rfl, rfl⟩

/-- Witness for C3: an unauthorized closure with code 4001 from a fresh
bind sets the "not authorized" error and schedules nothing. -/
theorem close_retry_policy_witness :
    (closeTransition freshState 4001).1.error =
        some "Not authorized to access this channel" ∧
    (closeTransition freshState 4001).2 = false :=
  (close_retry_policy freshState 4001).2 (Or.inl rfl)

/-- C4: the reconnect delay is `min(1000 * 2^attempt, 30000)`
milliseconds, giving exactly 1000, 2000, 4000, 8000, 16000, 30000 for
attempts 0..5, monotonically non-decreasing and capped at 30000. -/
theorem backoff_delay_spec :
    ([0, 1, 2, 3, 4, 5].map backoffDelay =
        [1000, 2000, 4000, 8000, 16000, 30000]) ∧
    (∀ a b : Nat, a ≤ b → backoffDelay a ≤ backoffDelay b) ∧
    (∀ a : Nat, backoffDelay a ≤ 30000) := by
  refine ⟨by decide, ?_, ?_⟩
  · intro a b hab
    unfold backoffDelay
    exact min_le_min
      (Nat.mul_le_mul_left _ (Nat.pow_le_pow_right (by norm_num) hab))
      le_rfl
  · intro a
    exact min_le_right _ _

/-- Witness for C4 at concrete attempts: monotone from attempt 2 to
attempt 4. -/
theorem backoff_delay_spec_witness :
    backoffDelay 2 ≤ backoffDelay 4 :=
  backoff_delay_spec.2.1 2 4 (by decide)

/-- C5: `sendMessage` with no socket or a non-OPEN ready-state returns
`false`, writes nothing and sets the "not connected" error; on an OPEN
socket it writes exactly one frame — a string wrapped as a
`content` object, a structured payload serialized unchanged — and
returns `true` with no error. -/
theorem sendMessage_spec :
    (∀ (sock : Option ReadyState) (content : SendContent),
        sock ≠ some ReadyState.OPEN →
        sendMessage sock content =
          { retVal := false, framesSent := [],
            errorSet := some "WebSocket not connected" }) ∧
    (∀ c : String,
        sendMessage (some ReadyState.OPEN) (SendContent.str c) =
          { retVal := true
            framesSent :=
              [Json.stringify
                (Json.obj (JsonObj.cons "content" (Json.str c) JsonObj.nil))]
            errorSet := none }) ∧
    (∀ j : Json,
        sendMessage (some ReadyState.OPEN) (SendContent.obj j) =
          { retVal := true, framesSent := [Json.stringify j],
            errorSet := none }) := by
  refine ⟨?_, fun c => rfl, fun j => rfl⟩
  intro sock content hne
  cases sock with
  | none => rfl
  | some rs =>
      have hrs : rs ≠ ReadyState.OPEN := fun h => hne (by rw [h])
      simp [sendMessage, hrs]

/-- Witness for C5: a send with no socket fails without writing; a send
on an OPEN socket writes the wrapped content frame. -/
theorem sendMessage_spec_witness :
    sendMessage none (SendContent.str "hi") =
      { retVal := false, framesSent := [],
        errorSet := some "WebSocket not connected" } ∧
    sendMessage (some ReadyState.OPEN) (SendContent.str "hi") =
      { retVal := true, framesSent := ["\x7b\"content\":\"hi\"\x7d"],
        errorSet := none } := by
  constructor
  · exact sendMessage_spec.1 none (SendContent.str "hi") (by decide)
  · rw [sendMessage_spec.2.1 "hi"]
    decide

/-- C7 counterexample: binding with a missing (null) channel identifier
and a token available sets NO error at all — the handler only logs,
marks disconnected and returns — while the claim requires a descriptive
error to be reported for a missing identifier. -/
theorem bind_missing_channel_sets_no_error :
    (bindEffect none (some "tok") "" freshState).1.error = none ∧
    (bindEffect none (some "tok") "" freshState).1.isConnected = false ∧
    (bindEffect none (some "tok") "" freshState).2 = false := by
  decide

/-- C7 amended: binding with a missing or empty identifier sets no
error message, only marks disconnected; the literal identifier
`"undefined"` sets "Invalid channel ID" and marks disconnected; a valid
identifier with no available token sets "Not authenticated"; in every
such case no Connection is created and no transport operation is
attempted. -/
theorem bind_validation_spec (cid storage : Option String) (cookie : String)
    (s : WsState) :
    (¬ jsTruthy cid →
      bindEffect cid storage cookie s =
        ({ s with messages := [], processedIds := [],
                  isConnected := false, phase := Phase.Idle }, false)) ∧
    (cid = some "undefined" →
      bindEffect cid storage cookie s =
        ({ s with messages := [], processedIds := [],
                  error := some "Invalid channel ID",
                  isConnected := false, phase := Phase.Idle }, false)) ∧
    (jsTruthy cid → cid ≠ some "undefined" →
      getToken storage cookie = none →
      bindEffect cid storage cookie s =
        ({ s with messages := [], processedIds := [],
                  error := some "Not authenticated", phase := Phase.Idle },
         false)) := by
  refine ⟨?_, ?_, ?_⟩
  · intro h
    unfold bindEffect
    rw [if_pos h]
  · intro h
    have ht : jsTruthy cid = true := by rw [h]; decide
    unfold bindEffect
    rw [if_neg (fun hn => hn ht), if_pos h]
  · intro ht hu htok
    unfold bindEffect
    rw [if_neg (fun hn => hn ht), if_neg hu, htok]

/-- Witness for C7 (amended): binding `general` with no token anywhere
reports "Not authenticated" without connecting. -/
theorem bind_validation_spec_witness :
    bindEffect (some "general") none "" freshState =
      ({ freshState with messages := [], processedIds := [],
                         error := some "Not authenticated",
                         phase := Phase.Idle }, false) :=
  (bind_validation_spec (some "general") none "" freshState).2.2
    (by decide) (by decide) (by decide)

/-- C8: after any run of the bind effect — in particular on every
channel change — the visible list and the dedup ledger are empty, and
whenever a Connection is created the attempt counter is 0. -/
theorem rebind_resets_state (cid storage : Option String) (cookie : String)
    (s : WsState) :
    (bindEffect cid storage cookie s).1.messages = [] ∧
    (bindEffect cid storage cookie s).1.processedIds = [] ∧
    ((bindEffect cid storage cookie s).2 = true →
      (bindEffect cid storage cookie s).1.reconnectAttempts = 0) := by
  unfold bindEffect
  split
  · exact ⟨rfl, rfl, fun h => by simp at h⟩
  · split
    · exact ⟨rfl, rfl, fun h => by simp at h⟩
    · split
      · exact ⟨rfl, rfl, fun h => by simp at h⟩
      · exact ⟨rfl, rfl, fun _ => rfl⟩

/-- Witness for C8 at a concrete successful rebind. -/
theorem rebind_resets_state_witness :
    (bindEffect (some "general") (some "tok") "" freshState).1.messages
        = [] ∧
    (bindEffect (some "general") (some "tok") "" freshState).1.processedIds
        = [] ∧
    (bindEffect (some "general") (some "tok") "" freshState).1.reconnectAttempts
        = 0 := by
  have h := rebind_resets_state (some "general") (some "tok") "" freshState
  exact ⟨h.1, h.2.1, h.2.2 (by decide)⟩

/-- C9: on every transport open — initial or reconnect, from any prior
state — the handler emits exactly one frame, the serialized token
object, marks the controller connected and open, resets the attempt
counter to 0 and clears the last error. -/
theorem open_handshake_spec (token : String) (s : WsState) :
    (handleOpen token s).2 = [authFrame token] ∧
    (handleOpen token s).2.length = 1 ∧
    (handleOpen token s).1.isConnected = true ∧
    (handleOpen token s).1.reconnectAttempts = 0 ∧
    (handleOpen token s).1.error = none ∧
    authFrame token =
      "\x7b" ++ jsonQuote "token" ++ ":" ++ jsonQuote token ++ "\x7d" := by
  refine ⟨rfl, rfl, rfl, rfl, rfl, ?_⟩
  simp [authFrame, Json.stringify, JsonObj.stringifyFields,
    String.append_assoc]

end Loryx
